import Mathlib

/-!
Shallow embedding of the api_open_weather ETL pipeline.

The embedding follows the three core source files:
- src/tools/get_lat_long.py        (class GetLatLong)
- src/extract/extract_current_weather.py (class ExtractDataCurrentWeather)
- src/load/load_current_weather.py (class LoadCurrentWeather)

External effects (the HTTP client, the SQLAlchemy engine and inspector, the
CSV reader, the clock) are parameters of the embedded functions: each oracle
says whether the corresponding call succeeds or raises, and the embedded
control flow mirrors the Python try/except/finally structure statement by
statement.
-/

/-- A JSON value as handled by pd.json_normalize: either a scalar cell or a
nested object.  Scalars are modeled by their final text rendering, because
the loader immediately applies astype(str) to every cell, so only the text
form of a scalar is ever observable downstream. -/
inductive JVal where
  | scalar (s : String)
  | obj (fields : List (String × JVal))

/-- One weather observation: the JSON dictionary returned by the provider
for one coordinate pair (keys are unique, as in a Python dict). -/
abbrev Obs := List (String × JVal)

/-- One flattened tabular row: column name to text cell. -/
abbrev Row := List (String × String)

/-- The underscore separator passed to pd.json_normalize. -/
def sepUnderscore : String := "_"

/-- The name of the timestamp column added by the loader. -/
def extract_date_col : String := "extract_date"

mutual
/-- Flattening of one value under a compound key, as json_normalize does:
a scalar yields one cell, a nested object joins child keys with the
underscore separator. -/
def flattenVal (key : String) : JVal → Row
  | JVal.scalar s => [(key, s)]
  | JVal.obj fields => flattenFields key fields

/-- Flattening of the fields of a nested object under a key. -/
def flattenFields (key : String) : List (String × JVal) → Row
  | [] => []
  | (k, v) :: rest => flattenVal (key ++ sepUnderscore ++ k) v ++ flattenFields key rest
end

/-- Flattening of one observation: top level keys keep their names, nested
objects contribute compound keys. -/
def flattenRow : Obs → Row
  | [] => []
  | (k, v) :: rest => flattenVal k v ++ flattenRow rest

/-- Append a column name to an ordered column list if it is not present yet
(first appearance order, as pandas builds the column index). -/
def addColName (acc : List String) (k : String) : List String :=
  if k ∈ acc then acc else acc ++ [k]

/-- Columns contributed by one row, appended to an accumulator. -/
def rowCols (acc : List String) (row : Row) : List String :=
  row.foldl (fun a kv => addColName a kv.1) acc

/-- Column index of a batch of rows: union of the per-row key sets in first
appearance order. -/
def frameCols (rows : List Row) : List String :=
  rows.foldl rowCols []

/-- A pandas DataFrame at the granularity the loader uses: an ordered column
index and the rows (cells a row does not mention are absent / NaN). -/
structure Frame where
  cols : List String
  rows : List Row

/-- DataFrame.empty: true when either axis has length zero. -/
def frameEmpty (f : Frame) : Bool := f.rows.isEmpty || f.cols.isEmpty

/-- The frame produced by pd.json_normalize(raw, sep) followed by
astype(str): one flattened row per observation. -/
def mkFrame (raw : List Obs) : Frame :=
  { cols := frameCols (raw.map flattenRow), rows := raw.map flattenRow }

/-- An observation with no nested values, built from text cells: the
already-flat inputs claim C9 quantifies over. -/
def toFlatObs (kvs : List (String × String)) : Obs :=
  kvs.map (fun kv => (kv.1, JVal.scalar kv.2))

/-- Cell lookup in a row by column name. -/
def getCell (row : Row) (k : String) : Option String :=
  (row.find? (fun kv => kv.1 == k)).map (fun kv => kv.2)

/-- Column assignment on one row: overwrite the cell if the key is present,
otherwise append the new cell at the end, as a pandas scalar column
assignment does positionally. -/
def setKV (row : Row) (k v : String) : Row :=
  if row.any (fun kv => kv.1 == k) then
    row.map (fun kv => if kv.1 == k then (k, v) else kv)
  else row ++ [(k, v)]

namespace LoadCurrentWeather

/-- The error text of the exception pd.json_normalize raises when the
constructor received raw_data = None (which happens in main.py whenever the
extractor was given no coordinates and returned None). -/
def noneTypeMsg : String := "TypeError: raw_data is None"

/-- Embedding of LoadCurrentWeather._extract_data: pd.json_normalize with
the underscore separator plus astype(str).  A None raw_data raises; a real
list of dictionaries normalizes successfully. -/
def extract_data (raw : Option (List Obs)) : Except String Frame :=
  match raw with
  | none => Except.error noneTypeMsg
  | some l => Except.ok (mkFrame l)

/-- Embedding of LoadCurrentWeather._add_extract_date: one timestamp string,
computed once from the clock, broadcast to every row as the extract_date
column. -/
def add_extract_date (ts : String) (f : Frame) : Frame :=
  { cols := if f.cols.contains extract_date_col then f.cols
            else f.cols ++ [extract_date_col],
    rows := f.rows.map (fun r => setKV r extract_date_col ts) }

/-- One destination table: its live column list and its stored rows. -/
structure Table where
  cols : List String
  rows : List Row

/-- The destination database: tables keyed by name. -/
structure DB where
  tables : List (String × Table)

/-- Inspector lookup of a table by name (has_table plus get_columns). -/
def findTable (db : DB) (tname : String) : Option Table :=
  (db.tables.find? (fun kv => kv.1 == tname)).map (fun kv => kv.2)

/-- Replace or create a table in the database. -/
def setTable (db : DB) (tname : String) (t : Table) : DB :=
  if db.tables.any (fun kv => kv.1 == tname) then
    { tables := db.tables.map (fun kv => if kv.1 == tname then (tname, t) else kv) }
  else { tables := db.tables ++ [(tname, t)] }

/-- Effect of one additive ADD COLUMN statement on the database. -/
def addColumn (db : DB) (tname col : String) : DB :=
  match findTable db tname with
  | none => db
  | some t => setTable db tname { cols := t.cols ++ [col], rows := t.rows }

/-- The set difference set(df.columns) - existing_columns, computed on the
incoming column list (which carries no duplicates). -/
def missingColumns (incoming existing : List String) : List String :=
  incoming.filter (fun c => decide (c ∉ existing))

/-- The text of the additive DDL statement issued per missing column. -/
def alterStmt (sc tname col : String) : String :=
  "ALTER TABLE " ++ sc ++ "." ++ tname ++ " ADD COLUMN " ++ col ++ " TEXT"

/-- The DDL statements LoadCurrentWeather._create_new_columns issues: none
when the table does not exist, otherwise one ALTER TABLE ... ADD COLUMN ...
TEXT per element of the set difference of incoming minus existing columns. -/
def create_new_columns_stmts (sc : String) (db : DB) (tname : String)
    (incoming : List String) : List String :=
  match findTable db tname with
  | none => []
  | some t => (missingColumns incoming t.cols).map (alterStmt sc tname)

/-- Outcomes of the external calls made during one load_data invocation:
each field is none when the call succeeds and some message when it raises. -/
structure LoadEnv where
  inspectErr : Option String
  ddlErr : String → Option String
  insertErr : Option String
  engineErr : Option String
  disposeErr : Option String

/-- Sequential execution of the ADD COLUMN loop: each statement either
raises (the exception leaves the loop at once) or extends the table. -/
def runDDL (env : LoadEnv) (sc tname : String) : DB → List String → Except String DB
  | db, [] => Except.ok db
  | db, c :: rest =>
    match env.ddlErr (alterStmt sc tname c) with
    | some e => Except.error e
    | none => runDDL env sc tname (addColumn db tname c) rest

/-- Embedding of LoadCurrentWeather._create_new_columns: inspect the
connection; when the table exists, issue one ADD COLUMN per missing column.
The except block of the source logs and re-raises, so every failure while
inspecting or issuing DDL surfaces as an error here. -/
def create_new_columns (env : LoadEnv) (sc : String) (db : DB) (tname : String)
    (incoming : List String) : Except String DB :=
  match env.inspectErr with
  | some e => Except.error e
  | none =>
    match findTable db tname with
    | none => Except.ok db
    | some t => runDDL env sc tname db (missingColumns incoming t.cols)

/-- Effect of df.to_sql(if_exists=append): create the table from the frame
when absent, otherwise append the rows. -/
def to_sql_append (db : DB) (tname : String) (df : Frame) : DB :=
  match findTable db tname with
  | none => setTable db tname { cols := df.cols, rows := df.rows }
  | some t => setTable db tname { cols := t.cols, rows := t.rows ++ df.rows }

/-- The body of the engine.begin() block: schema synchronization followed by
the insert; any error aborts the body. -/
def txBody (env : LoadEnv) (sc : String) (db : DB) (tname : String) (df : Frame) :
    Except String DB :=
  match create_new_columns env sc db tname df.cols with
  | Except.error e => Except.error e
  | Except.ok db2 =>
    match env.insertErr with
    | some e => Except.error e
    | none => Except.ok (to_sql_append db2 tname df)

/-- How one load_data call ended for its caller: a normal return, or an
exception propagated out of the method. -/
inductive LoadOutcome where
  | normal
  | raised (e : String)
deriving DecidableEq

/-- Observable result of one load_data call: the final database state, how
the call returned, and how many times engine.dispose was called. -/
structure LoadResult where
  db : DB
  outcome : LoadOutcome
  disposeCount : Nat

/-- Embedding of LoadCurrentWeather.load_data, mirroring the source line by
line: flatten (outside any try, so its exception propagates); early return
on an empty frame before any engine exists; create_engine (also outside the
try); then the try block holding the engine.begin() transaction, whose
failure rolls the database back and is logged and swallowed; finally one
engine.dispose whose own failure is logged, never raised. -/
def load_data (env : LoadEnv) (sc : String) (raw : Option (List Obs)) (ts : String)
    (db : DB) (tname : String) : LoadResult :=
  match extract_data raw with
  | Except.error e => { db := db, outcome := LoadOutcome.raised e, disposeCount := 0 }
  | Except.ok df =>
    if frameEmpty df then { db := db, outcome := LoadOutcome.normal, disposeCount := 0 }
    else
      match env.engineErr with
      | some e => { db := db, outcome := LoadOutcome.raised e, disposeCount := 0 }
      | none =>
        match txBody env sc db tname (add_extract_date ts df) with
        | Except.ok db2 => { db := db2, outcome := LoadOutcome.normal, disposeCount := 1 }
        | Except.error _ => { db := db, outcome := LoadOutcome.normal, disposeCount := 1 }

end LoadCurrentWeather

namespace ExtractDataCurrentWeather

/-- One coordinate pair as read from the CSV: latitude and longitude kept as
opaque text (the extractor only forwards them as query parameters). -/
abbrev Coord := String × String

/-- The fixed inter-request delay in seconds (60 requests per minute). -/
def request_interval : Nat := 1

/-- The per-iteration body of extract_data.  The network oracle says what
one GET for a coordinate yields: ok carries the parsed JSON body, error
stands for any handled per-request failure (HTTP error status, transport
failure, or any other exception while processing that one request).  On
success the observation is appended and one time.sleep(request_interval)
runs; every handled failure is logged and skips both the append and the
sleep, continuing with the next coordinate.  The result pairs the collected
batch with the number of sleep calls. -/
def extractLoop (net : Coord → Except Unit Obs) : List Coord → List Obs × Nat
  | [] => ([], 0)
  | c :: rest =>
    match net c with
    | Except.ok d =>
      let r := extractLoop net rest
      (d :: r.1, r.2 + 1)
    | Except.error _ => extractLoop net rest

/-- Embedding of ExtractDataCurrentWeather.extract_data: an empty coordinate
list logs a warning and returns None; otherwise the sequential request loop
runs and the collected batch is returned. -/
def extract_data (net : Coord → Except Unit Obs) (latLongList : List Coord) :
    Option (List Obs × Nat) :=
  if latLongList.isEmpty then none
  else some (extractLoop net latLongList)

end ExtractDataCurrentWeather

namespace GetLatLong

/-- The source CSV as a table: its header and its rows (cells are text). -/
structure Csv where
  cols : List String
  rows : List Row

/-- Outcome of pd.read_csv on an existing file: the two pandas errors that
get their own except clauses, or a parsed table. -/
inductive CsvReadOutcome where
  | emptyData
  | parseError
  | ok (df : Csv)

/-- One element of the list the resolver returns.  The Python list is
heterogeneous: the per-city branch appends single [latitude, longitude]
pairs, while the cities-is-None branch appends the whole list of pairs of
the table as one element. -/
inductive LLItem where
  | pair (lat lon : String)
  | table (pairs : List (String × String))
deriving DecidableEq

/-- The column names the resolver reads. -/
def latitude_col : String := "latitude"

/-- The longitude column name. -/
def longitude_col : String := "longitude"

/-- The municipality name column. -/
def nome_col : String := "nome"

/-- Message of the ValueError raised for a missing coordinate column. -/
def valueErrorMsg : String := "ValueError: the CSV file must contain latitude and longitude columns"

/-- Message of the KeyError raised when the nome column is selected but
absent. -/
def keyErrorMsg : String := "KeyError: nome"

/-- Message of the FileNotFoundError raised before the try block. -/
def fileNotFoundMsg : String := "FileNotFoundError"

/-- Cell of a row under a column, empty text when absent (NaN). -/
def cellD (row : Row) (k : String) : String :=
  (getCell row k).getD ("")

/-- The body of the try block of get_lat_long: raise ValueError when either
coordinate column is missing; with cities None, append the list of all
[latitude, longitude] pairs of the table as a single element; otherwise
loop over the cities, selecting the first row whose nome cell equals the
city (a missing nome column makes the selection of the first iteration
raise KeyError), appending its pair on a match and only printing a message
otherwise. -/
def getLatLongBody (df : Csv) (cities : Option (List String)) :
    Except String (List LLItem) :=
  if !(df.cols.contains latitude_col) || !(df.cols.contains longitude_col) then
    Except.error valueErrorMsg
  else
    match cities with
    | none =>
      Except.ok [LLItem.table (df.rows.map (fun r => (cellD r latitude_col, cellD r longitude_col)))]
    | some cs =>
      if cs.isEmpty || df.cols.contains nome_col then
        Except.ok (cs.filterMap (fun city =>
          (df.rows.find? (fun r => getCell r nome_col == some city)).map
            (fun r => LLItem.pair (cellD r latitude_col) (cellD r longitude_col))))
      else Except.error keyErrorMsg

/-- Embedding of GetLatLong.get_lat_long: a missing file raises
FileNotFoundError before the try block, so that error reaches the caller;
EmptyDataError and ParserError from read_csv print a message and return the
accumulated list; any exception raised inside the body (the ValueError for
missing coordinate columns, the KeyError for a missing nome column) is
caught by the generic except clause, which prints a message and returns the
accumulated list - and every raise site is reached before anything was
appended, so the list returned there is empty. -/
def get_lat_long (fileExists : Bool) (csvRead : CsvReadOutcome)
    (cities : Option (List String)) : Except String (List LLItem) :=
  if fileExists = false then Except.error fileNotFoundMsg
  else
    match csvRead with
    | CsvReadOutcome.emptyData => Except.ok []
    | CsvReadOutcome.parseError => Except.ok []
    | CsvReadOutcome.ok df =>
      match getLatLongBody df cities with
      | Except.error _ => Except.ok []
      | Except.ok l => Except.ok l

end GetLatLong

/-! Concrete inputs used by witnesses and counterexamples. -/

namespace Fixtures

open LoadCurrentWeather ExtractDataCurrentWeather GetLatLong

/-- A schema name for concrete runs. -/
def sc0 : String := "dw"

/-- A table name for concrete runs. -/
def tn0 : String := "raw_current_weather"

/-- A timestamp for concrete runs. -/
def ts0 : String := "2025-01-01 15:00:00"

/-- A one-observation batch. -/
def l0 : List Obs := [[("id", JVal.scalar ("1")), ("name", JVal.scalar ("Campinas"))]]

/-- A destination database holding the table with columns rain and snow. -/
def db1 : DB := { tables := [(tn0, { cols := ["rain", "snow"], rows := [] })] }

/-- The live table of db1. -/
def t1 : LoadCurrentWeather.Table := { cols := ["rain", "snow"], rows := [] }

/-- Incoming batch columns of the scenario of the spec: rain, snow, gust. -/
def incoming1 : List String := ["rain", "snow", "gust"]

/-- An environment in which every external call succeeds. -/
def envOK : LoadEnv :=
  { inspectErr := none, ddlErr := fun _ => none, insertErr := none,
    engineErr := none, disposeErr := none }

/-- An environment in which schema inspection raises. -/
def envInspectFail : LoadEnv :=
  { inspectErr := some ("OperationalError"), ddlErr := fun _ => none,
    insertErr := none, engineErr := none, disposeErr := none }

/-- An environment in which only engine.dispose raises. -/
def envDisposeFail : LoadEnv :=
  { inspectErr := none, ddlErr := fun _ => none, insertErr := none,
    engineErr := none, disposeErr := some ("PoolError") }

/-- A coordinate whose request succeeds under netW. -/
def cGood : Coord := ("-22.9", "-47.06")

/-- A coordinate whose request fails under netW. -/
def cBad : Coord := ("-26.97", "-52.53")

/-- A network oracle succeeding exactly on cGood. -/
def netW : Coord → Except Unit Obs :=
  fun c => if c = cGood then Except.ok [("id", JVal.scalar ("1"))] else Except.error ()

/-- A network oracle on which every request fails. -/
def netFail : Coord → Except Unit Obs := fun _ => Except.error ()

/-- The two-coordinate input of the extractor witness. -/
def coordsW : List Coord := [cGood, cBad]

/-- A CSV table lacking the latitude column. -/
def csvNoLat : Csv :=
  { cols := [nome_col, longitude_col],
    rows := [[(nome_col, "Campinas"), (longitude_col, "-47.06")]] }

/-- A complete one-row CSV table. -/
def csvFull : Csv :=
  { cols := [nome_col, latitude_col, longitude_col],
    rows := [[(nome_col, "Campinas"), (latitude_col, "-22.9"), (longitude_col, "-47.06")]] }

/-- A flat two-cell observation, given as text cells. -/
def kvs0 : List (String × String) := [("id", "1"), ("name", "Campinas")]

/-- The one column of the spec scenario that the live table lacks. -/
def gustCol : String := "gust"

/-- A city name used by the resolver runs. -/
def campinas : String := "Campinas"

end Fixtures

/-! Helper lemmas. -/

open LoadCurrentWeather ExtractDataCurrentWeather GetLatLong Fixtures

/-- The extraction loop collects exactly the successful responses in input
order, and sleeps once per success. -/
theorem extractLoop_eq (net : Coord → Except Unit Obs) :
    ∀ l : List Coord,
      extractLoop net l
        = (l.filterMap (fun c => (net c).toOption),
           (l.filterMap (fun c => (net c).toOption)).length)
  | [] => rfl
  | c :: rest => by
    cases hnc : net c with
    | ok d => simp [extractLoop, hnc, Except.toOption, extractLoop_eq net rest]
    | error u => simp [extractLoop, hnc, Except.toOption, extractLoop_eq net rest]

/-! Claim theorems. -/

/-- Claim C8: for every non-empty coordinate sequence the extractor returns
a batch (not an error), that batch is exactly the successful responses in
input order (hence a subsequence of the per-coordinate responses, of length
at most the input length), and when every request fails the batch is empty. -/
theorem c8_output_subsequence (net : Coord → Except Unit Obs) (coords : List Coord)
    (h : coords ≠ []) :
    ExtractDataCurrentWeather.extract_data net coords
      = some (coords.filterMap (fun c => (net c).toOption),
              (coords.filterMap (fun c => (net c).toOption)).length)
    ∧ (coords.filterMap (fun c => (net c).toOption)).length ≤ coords.length
    ∧ ((∀ c ∈ coords, net c = Except.error ()) →
        coords.filterMap (fun c => (net c).toOption) = []) := by
  refine ⟨?_, ?_, ?_⟩
  · simp [ExtractDataCurrentWeather.extract_data, h, extractLoop_eq net coords]
  · exact List.length_filterMap_le _ _
  · intro hall
    rw [List.filterMap_eq_nil_iff]
    intro c hc
    rw [hall c hc]
    rfl

/-- Witness for C8 at a concrete two-coordinate input on which the first
request succeeds and the second fails. -/
theorem c8_witness :
    coordsW ≠ []
    ∧ (ExtractDataCurrentWeather.extract_data netW coordsW
        = some (coordsW.filterMap (fun c => (netW c).toOption),
                (coordsW.filterMap (fun c => (netW c).toOption)).length)
      ∧ (coordsW.filterMap (fun c => (netW c).toOption)).length ≤ coordsW.length
      ∧ ((∀ c ∈ coordsW, netW c = Except.error ()) →
          coordsW.filterMap (fun c => (netW c).toOption) = [])) :=
  ⟨by decide, c8_output_subsequence netW coordsW (by decide)⟩

/-- Counterexample to C4: with one coordinate whose request fails, the loop
performs zero sleep calls while one coordinate pair was processed, so the
number of sleeps does not equal the number of coordinate pairs. -/
theorem c4_counterexample :
    ExtractDataCurrentWeather.extract_data netFail [cBad] = some ([], 0)
    ∧ ([cBad] : List Coord).length = 1
    ∧ (0 : Nat) ≠ 1 :=
  ⟨rfl, rfl, by decide⟩

/-- Claim C4 as amended: the fixed 1-second sleep runs only on the success
path, after the observation is appended, so the number of sleep calls of
the extraction loop equals the number of successfully processed requests
(the length of the output batch), not the number of coordinate pairs. -/
theorem c4_amended_sleep_per_success (net : Coord → Except Unit Obs)
    (coords : List Coord) :
    (extractLoop net coords).2 = (extractLoop net coords).1.length := by
  rw [extractLoop_eq net coords]

/-- Claim C1: for every existing destination table and every incoming batch
column list (without duplicates, as a pandas column index is), the schema
synchronization step issues exactly the list of additive ADD COLUMN ...
TEXT statements indexed by the set difference of incoming minus existing
columns: that difference has no duplicates, its members are exactly the
incoming columns absent from the table, and when the incoming columns are a
subset of the existing ones no statement at all is issued. -/
theorem c1_schema_sync_statements (sc tname : String) (db : DB)
    (t : LoadCurrentWeather.Table) (incoming : List String)
    (ht : findTable db tname = some t) (hnd : incoming.Nodup) :
    create_new_columns_stmts sc db tname incoming
      = (missingColumns incoming t.cols).map (alterStmt sc tname)
    ∧ (missingColumns incoming t.cols).Nodup
    ∧ (∀ c, c ∈ missingColumns incoming t.cols ↔ (c ∈ incoming ∧ c ∉ t.cols))
    ∧ ((∀ c ∈ incoming, c ∈ t.cols) →
        create_new_columns_stmts sc db tname incoming = []) := by
  refine ⟨?_, ?_, ?_, ?_⟩
  · simp [create_new_columns_stmts, ht]
  · exact hnd.filter _
  · intro c
    simp [missingColumns]
  · intro hsub
    have hmiss : missingColumns incoming t.cols = [] := by
      rw [missingColumns, List.filter_eq_nil_iff]
      intro c hc
      simp [hsub c hc]
    simp [create_new_columns_stmts, ht, hmiss]

/-- Witness for C1 at the scenario of the spec: live columns rain and snow,
incoming columns rain, snow and gust, exactly one statement, adding gust
with the text type. -/
theorem c1_witness :
    create_new_columns_stmts sc0 db1 tn0 incoming1 = [alterStmt sc0 tn0 gustCol] := by
  have h := c1_schema_sync_statements sc0 tn0 db1 t1 incoming1 (by rfl) (by decide)
  rw [h.1]
  rfl

/-- Claim C2: whenever the schema synchronization step fails - whether the
inspection raised or one of the ADD COLUMN statements raised, both of which
its except block logs and re-raises, surfacing here as an error result -
the transaction of the enclosing load call rolls back, so the destination
database after the load call is exactly the database before it and no row
of the batch was inserted. -/
theorem c2_schema_sync_failure_rolls_back (env : LoadEnv) (sc : String)
    (l : List Obs) (ts : String) (db : DB) (tname : String) (e : String)
    (hfail : create_new_columns env sc db tname
        (add_extract_date ts (mkFrame l)).cols = Except.error e) :
    (load_data env sc (some l) ts db tname).db = db := by
  have htx : txBody env sc db tname (add_extract_date ts (mkFrame l)) = Except.error e := by
    simp only [txBody, hfail]
  simp only [load_data, LoadCurrentWeather.extract_data]
  rw [htx]
  split
  · rfl
  · cases henv : env.engineErr
    · rfl
    · rfl

/-- Witness for C2: with an inspector that raises, schema synchronization
surfaces the error and the load call leaves the concrete database
unchanged. -/
theorem c2_witness :
    create_new_columns envInspectFail sc0 db1 tn0
        (add_extract_date ts0 (mkFrame l0)).cols = Except.error ("OperationalError")
    ∧ (load_data envInspectFail sc0 (some l0) ts0 db1 tn0).db = db1 :=
  ⟨rfl, c2_schema_sync_failure_rolls_back envInspectFail sc0 l0 ts0 db1 tn0
    ("OperationalError") rfl⟩

/-- Counterexample to C3: with raw_data None - exactly what main.py passes
to the loader whenever the extractor received no coordinates and returned
None - the flatten step raises outside the try block of load_data, and the
exception propagates to the caller instead of being caught and logged. -/
theorem c3_counterexample :
    (load_data envOK sc0 none ts0 db1 tn0).outcome
      = LoadOutcome.raised noneTypeMsg := rfl

/-- Claim C3 as amended: only the transaction body (schema synchronization
and insertion) and disposal sit inside the try blocks of load_data, so any
failure there is caught and logged and the method returns normally; but
flattening and engine creation run before the try block, so their
exceptions propagate to the caller.  Whenever flattening succeeds (the raw
batch is an actual list) and engine creation succeeds, the method never
re-raises, whatever happens during schema sync, insert or disposal. -/
theorem c3_amended_no_reraise_inside_try (env : LoadEnv) (sc : String)
    (l : List Obs) (ts : String) (db : DB) (tname : String)
    (heng : env.engineErr = none) :
    (load_data env sc (some l) ts db tname).outcome = LoadOutcome.normal := by
  simp only [load_data, LoadCurrentWeather.extract_data]
  split
  · rfl
  · rw [heng]
    cases txBody env sc db tname (add_extract_date ts (mkFrame l)) <;> rfl

/-- Witness for C3 as amended at a concrete successful run. -/
theorem c3_witness :
    envOK.engineErr = none
    ∧ (load_data envOK sc0 (some l0) ts0 db1 tn0).outcome = LoadOutcome.normal :=
  ⟨rfl, c3_amended_no_reraise_inside_try envOK sc0 l0 ts0 db1 tn0 rfl⟩

/-- Counterexample to C7: a load invocation with an empty batch returns at
the empty check before any engine exists, so the number of disposal calls
of that invocation is zero, not one. -/
theorem c7_counterexample :
    (load_data envOK sc0 (some ([] : List Obs)) ts0 db1 tn0).disposeCount = 0
    ∧ (0 : Nat) ≠ 1 :=
  ⟨rfl, by decide⟩

/-- Claim C7 as amended: on every load invocation that reaches the engine -
the batch flattens to a non-empty frame and engine creation succeeds - the
finally block runs engine.dispose exactly once, on the success path and on
every failure path alike, and a disposal failure is only logged: the method
still returns normally. -/
theorem c7_amended_dispose_once_nonempty (env : LoadEnv) (sc : String)
    (l : List Obs) (ts : String) (db : DB) (tname : String)
    (heng : env.engineErr = none) (hne : frameEmpty (mkFrame l) = false) :
    (load_data env sc (some l) ts db tname).disposeCount = 1
    ∧ (load_data env sc (some l) ts db tname).outcome = LoadOutcome.normal := by
  constructor <;>
  · simp only [load_data, LoadCurrentWeather.extract_data, hne, heng,
      Bool.false_eq_true, if_false]
    cases txBody env sc db tname (add_extract_date ts (mkFrame l)) <;> rfl

/-- Witness for C7 as amended at a concrete run in which disposal itself
raises: still exactly one disposal call and a normal return. -/
theorem c7_witness :
    envDisposeFail.engineErr = none
    ∧ frameEmpty (mkFrame l0) = false
    ∧ ((load_data envDisposeFail sc0 (some l0) ts0 db1 tn0).disposeCount = 1
      ∧ (load_data envDisposeFail sc0 (some l0) ts0 db1 tn0).outcome
          = LoadOutcome.normal) :=
  ⟨rfl, rfl, c7_amended_dispose_once_nonempty envDisposeFail sc0 l0 ts0 db1 tn0 rfl rfl⟩

/-- Counterexample to C5: a parsed source table lacking the latitude column
makes the body raise its ValueError, yet get_lat_long catches it in its own
generic except clause and returns an empty coordinate list as a normal
result - nothing propagates to the caller. -/
theorem c5_counterexample :
    getLatLongBody csvNoLat (some [campinas]) = Except.error valueErrorMsg
    ∧ get_lat_long true (CsvReadOutcome.ok csvNoLat) (some [campinas])
        = Except.ok [] :=
  ⟨rfl, rfl⟩

/-- Claim C5 as amended: for every existing, parseable source table missing
the latitude column or the longitude column, the ValueError is raised
inside the try block and immediately swallowed by the generic except clause
of get_lat_long itself, which returns the empty accumulated list as a
normal result; no error reaches the caller. -/
theorem c5_amended_schema_error_swallowed (df : Csv) (cities : Option (List String))
    (h : latitude_col ∉ df.cols ∨ longitude_col ∉ df.cols) :
    getLatLongBody df cities = Except.error valueErrorMsg
    ∧ get_lat_long true (CsvReadOutcome.ok df) cities = Except.ok [] := by
  have hbody : getLatLongBody df cities = Except.error valueErrorMsg := by
    unfold getLatLongBody
    rcases h with h | h <;> simp [h]
  exact ⟨hbody, by simp [get_lat_long, hbody]⟩

/-- Witness for C5 as amended at the concrete table without latitude. -/
theorem c5_witness :
    (latitude_col ∉ csvNoLat.cols ∨ longitude_col ∉ csvNoLat.cols)
    ∧ (getLatLongBody csvNoLat none = Except.error valueErrorMsg
      ∧ get_lat_long true (CsvReadOutcome.ok csvNoLat) none = Except.ok []) :=
  ⟨Or.inl (by decide),
    c5_amended_schema_error_swallowed csvNoLat none (Or.inl (by decide))⟩

/-- Counterexample to C6: requesting an empty city list over a valid
one-row table runs the per-city loop zero times and returns an empty list,
not one coordinate pair per table row. -/
theorem c6_counterexample :
    get_lat_long true (CsvReadOutcome.ok csvFull) (some []) = Except.ok []
    ∧ csvFull.rows.length = 1 :=
  ⟨rfl, rfl⟩

/-- Claim C6 as amended: only cities = None takes the whole-table branch,
and that branch appends the list of all [latitude, longitude] pairs of the
table, in table order, as one single element of the returned list; an empty
city list instead runs the per-city loop zero times and yields an empty
result. -/
theorem c6_amended_none_vs_empty (df : Csv)
    (hlat : latitude_col ∈ df.cols) (hlon : longitude_col ∈ df.cols) :
    get_lat_long true (CsvReadOutcome.ok df) none
      = Except.ok [LLItem.table
          (df.rows.map (fun r => (cellD r latitude_col, cellD r longitude_col)))]
    ∧ get_lat_long true (CsvReadOutcome.ok df) (some []) = Except.ok [] := by
  constructor <;> simp [get_lat_long, getLatLongBody, hlat, hlon]

/-- Witness for C6 as amended at the concrete one-row table. -/
theorem c6_witness :
    latitude_col ∈ csvFull.cols
    ∧ longitude_col ∈ csvFull.cols
    ∧ (get_lat_long true (CsvReadOutcome.ok csvFull) none
        = Except.ok [LLItem.table
            (csvFull.rows.map (fun r => (cellD r latitude_col, cellD r longitude_col)))]
      ∧ get_lat_long true (CsvReadOutcome.ok csvFull) (some []) = Except.ok []) :=
  ⟨by decide, by decide, c6_amended_none_vs_empty csvFull (by decide) (by decide)⟩

/-- Overwriting every cell keyed k makes the first k-lookup yield the new
cell, provided some cell keyed k exists. -/
theorem find_overwrite (k v : String) :
    ∀ row : Row, row.any (fun kv => kv.1 == k) = true →
      (row.map (fun kv => if kv.1 == k then (k, v) else kv)).find?
          (fun kv => kv.1 == k) = some (k, v)
  | [], h => by simp at h
  | hd :: tl, h => by
    simp only [List.map_cons, List.find?_cons]
    by_cases hk : (hd.1 == k) = true
    · rw [if_pos hk]
      simp
    · simp only [Bool.not_eq_true] at hk
      rw [if_neg (by rw [hk]; exact Bool.false_ne_true), hk]
      have htl : tl.any (fun kv => kv.1 == k) = true := by
        simpa [List.any_cons, hk] using h
      exact find_overwrite k v tl htl

/-- Appending a cell keyed k after a row without that key makes the first
k-lookup yield the appended cell. -/
theorem find_after_append (k v : String) :
    ∀ row : Row, row.any (fun kv => kv.1 == k) = false →
      (row ++ [(k, v)]).find? (fun kv => kv.1 == k) = some (k, v)
  | [], _ => by simp [List.find?_cons]
  | hd :: tl, h => by
    have h2 := h
    simp only [List.any_cons, Bool.or_eq_false_iff] at h2
    simp [List.find?_cons, h2.1, find_after_append k v tl h2.2]

/-- Column assignment always makes the assigned cell the one the lookup
finds. -/
theorem getCell_setKV (row : Row) (k v : String) :
    getCell (setKV row k v) k = some v := by
  unfold getCell setKV
  by_cases h : row.any (fun kv => kv.1 == k) = true
  · rw [if_pos h, find_overwrite k v row h]
    rfl
  · have hf : row.any (fun kv => kv.1 == k) = false := by
      simp only [Bool.not_eq_true] at h
      exact h
    rw [if_neg (by rw [hf]; exact Bool.false_ne_true), find_after_append k v row hf]
    rfl

/-- Claim C10: the extract_date timestamp is computed once per batch and
broadcast, so every row of the stamped frame carries that very timestamp in
its extract_date column - no two rows of one load differ there. -/
theorem c10_single_timestamp_per_batch (ts : String) (f : Frame) :
    ∀ r ∈ (add_extract_date ts f).rows, getCell r extract_date_col = some ts := by
  intro r hr
  simp only [add_extract_date, List.mem_map] at hr
  obtain ⟨r0, _, rfl⟩ := hr
  exact getCell_setKV r0 extract_date_col ts

/-- Witness for C10 at a concrete stamped two-cell row. -/
theorem c10_witness :
    getCell [("id", "1"), ("name", "Campinas"), (extract_date_col, ts0)]
        extract_date_col = some ts0 :=
  c10_single_timestamp_per_batch ts0 (mkFrame [toFlatObs kvs0])
    [("id", "1"), ("name", "Campinas"), (extract_date_col, ts0)] (by decide)

/-- Folding the column names of a row whose keys are distinct and absent
from the accumulator appends exactly those keys, in order. -/
theorem rowCols_fresh :
    ∀ (row : Row) (acc : List String), (row.map Prod.fst).Nodup →
      (∀ x ∈ row.map Prod.fst, x ∉ acc) →
      rowCols acc row = acc ++ row.map Prod.fst
  | [], acc, _, _ => by simp [rowCols]
  | (k, v) :: tl, acc, hnd, hdis => by
    have hk : k ∉ acc := hdis k (by simp)
    have hstep : rowCols acc ((k, v) :: tl) = rowCols (acc ++ [k]) tl := by
      simp [rowCols, addColName, hk]
    have hnd2 : (tl.map Prod.fst).Nodup := by
      simp only [List.map_cons, List.nodup_cons] at hnd
      exact hnd.2
    have hkn : k ∉ tl.map Prod.fst := by
      simp only [List.map_cons, List.nodup_cons] at hnd
      exact hnd.1
    have hdis2 : ∀ x ∈ tl.map Prod.fst, x ∉ acc ++ [k] := by
      intro x hx
      simp only [List.mem_append, List.mem_singleton]
      rintro (hxa | rfl)
      · exact hdis x (by simp [hx]) hxa
      · exact hkn hx
    rw [hstep, rowCols_fresh tl (acc ++ [k]) hnd2 hdis2]
    simp

/-- The column index of a one-row frame whose keys are distinct is exactly
the key list of that row. -/
theorem frameCols_single (row : Row) (hnd : (row.map Prod.fst).Nodup) :
    frameCols [row] = row.map Prod.fst := by
  have h := rowCols_fresh row [] hnd (by simp)
  simpa [frameCols] using h

/-- Flattening a flat observation returns exactly its cells. -/
theorem flattenRow_toFlatObs : ∀ kvs : List (String × String),
    flattenRow (toFlatObs kvs) = kvs
  | [] => rfl
  | (k, v) :: tl => by
    have ih := flattenRow_toFlatObs tl
    simp only [toFlatObs, List.map_cons] at ih ⊢
    simp [flattenRow, flattenVal, ih]

/-- Claim C9: flattening is the identity on an already-flat observation -
the flat row keeps exactly the same keys with the same cells - and stamping
adds the single extract_date column at the end, both in the row and in the
column index of the frame. -/
theorem c9_flatten_idempotent_on_flat (kvs : List (String × String)) (ts : String)
    (hnd : (kvs.map Prod.fst).Nodup) (hed : extract_date_col ∉ kvs.map Prod.fst) :
    flattenRow (toFlatObs kvs) = kvs
    ∧ (add_extract_date ts (mkFrame [toFlatObs kvs])).rows
        = [kvs ++ [(extract_date_col, ts)]]
    ∧ (add_extract_date ts (mkFrame [toFlatObs kvs])).cols
        = kvs.map Prod.fst ++ [extract_date_col] := by
  have hflat := flattenRow_toFlatObs kvs
  have hany : kvs.any (fun kv => kv.1 == extract_date_col) = false := by
    rw [List.any_eq_false]
    intro kv hkv
    simp only [beq_iff_eq]
    intro hcontra
    exact hed (List.mem_map.mpr ⟨kv, hkv, hcontra⟩)
  have hrows : (mkFrame [toFlatObs kvs]).rows = [kvs] := by
    show [toFlatObs kvs].map flattenRow = [kvs]
    rw [List.map_singleton, hflat]
  have hcols : (mkFrame [toFlatObs kvs]).cols = kvs.map Prod.fst := by
    show frameCols ([toFlatObs kvs].map flattenRow) = kvs.map Prod.fst
    rw [List.map_singleton, hflat]
    exact frameCols_single kvs hnd
  have hset : setKV kvs extract_date_col ts = kvs ++ [(extract_date_col, ts)] := by
    unfold setKV
    rw [if_neg (by rw [hany]; exact Bool.false_ne_true)]
  refine ⟨hflat, ?_, ?_⟩
  · show (mkFrame [toFlatObs kvs]).rows.map (fun r => setKV r extract_date_col ts)
        = [kvs ++ [(extract_date_col, ts)]]
    rw [hrows, List.map_singleton, hset]
  · show (if (mkFrame [toFlatObs kvs]).cols.contains extract_date_col
          then (mkFrame [toFlatObs kvs]).cols
          else (mkFrame [toFlatObs kvs]).cols ++ [extract_date_col])
        = kvs.map Prod.fst ++ [extract_date_col]
    rw [hcols, if_neg (by simp [hed])]

/-- Witness for C9 at a concrete flat two-cell observation. -/
theorem c9_witness :
    flattenRow (toFlatObs kvs0) = kvs0
    ∧ (add_extract_date ts0 (mkFrame [toFlatObs kvs0])).rows
        = [kvs0 ++ [(extract_date_col, ts0)]]
    ∧ (add_extract_date ts0 (mkFrame [toFlatObs kvs0])).cols
        = kvs0.map Prod.fst ++ [extract_date_col] :=
  c9_flatten_idempotent_on_flat kvs0 ts0 (by decide) (by decide)
